import Mathlib

/-!
Shallow embedding of the Feardrop/STLSlicer repository (files
`src/stlslicer.py` and `src/util.py`) together with proofs about the
claims of its specification.

Conventions of the embedding:
* Python floats are modelled as rationals (`ℚ`); the claims under study
  are about counts, ordering and control flow, not rounding.
* The trimesh mesh object is modelled by the derived properties the
  slicer reads: bounding box, centroid and the watertight flag.
* `Trimesh.section_multiplane` is an external collaborator; it is passed
  in as a function argument (`Sectioner`), one `Option CrossSection` per
  requested height (`none` models Python `None` for a plane that misses
  the mesh).
* Python exceptions are modelled with `Except PyError`.
* Python dictionaries (`dict`) keep insertion order; they are modelled as
  association lists with `pyDictInsert` implementing `d[k] = v`.
-/

/-- Three rational coordinates, modelling a 3-element numpy vector. -/
structure Vec3 where
  x : ℚ
  y : ℚ
  z : ℚ
deriving DecidableEq

/-- A 2D cross section (`trimesh.path.Path2D`), modelled as its polylines:
an ordered collection of sequences of 2D points. -/
abbrev CrossSection := List (List (ℚ × ℚ))

/-- The derived mesh properties read by the slicer: `mesh.bounds[0]`,
`mesh.bounds[1]`, `mesh.centroid` and `mesh.is_watertight`. -/
structure Mesh where
  bounds_min : Vec3
  bounds_max : Vec3
  centroid : Vec3
  is_watertight : Bool
deriving DecidableEq

/-- The external collaborator `self.mesh.section_multiplane`: given the
plane origin, the plane normal and the list of heights it returns one
`Option CrossSection` per height (`none` for an empty intersection). -/
abbrev Sectioner := Vec3 → Vec3 → List ℚ → List (Option CrossSection)

/-- The Python exceptions that can escape the modelled code, plus the
`InvalidParameter` failure that the specification postulates (the source
never raises it). -/
inductive PyError where
  | attributeError
  | indexError
  | zeroDivisionError
  | invalidParameter
deriving DecidableEq

/-- The observable result of a successful `STLSlicer.slice_mesh` call:
the plane origin it used, the height schedule `z_list`, and the layer
dictionary it stores in `self.layers` and returns. -/
structure SliceResult where
  origin : Vec3
  z_list : List ℚ
  layers : List (ℚ × Option CrossSection)
deriving DecidableEq

/-- Python `int()` applied to a float: truncation toward zero. -/
def pyInt (q : ℚ) : ℤ := if 0 ≤ q then ⌊q⌋ else ⌈q⌉

/-- Python `range(n)` for an integer argument: empty when `n ≤ 0`. -/
def pyRange (n : ℤ) : List ℤ := (List.range n.toNat).map (fun i : ℕ => (i : ℤ))

/-- Python dictionary assignment `d[k] = v`: replaces the value in place
when the key is present, otherwise appends the pair (insertion order). -/
def pyDictInsert {α : Type} (d : List (ℚ × α)) (k : ℚ) (v : α) : List (ℚ × α) :=
  if k ∈ d.map Prod.fst then d.map (fun p => if p.1 = k then (k, v) else p)
  else d ++ [(k, v)]

/-- Truthiness of a bound-method attribute access in Python: the source
writes `mesh.fix_normals` and `mesh.fill_holes` WITHOUT call parentheses
(stlslicer.py lines 190 and 192), so the expression evaluates to the
bound method object itself, which is always truthy. -/
def bound_method_truthy : Bool := true

/-- Embedding of `repair_mesh_watertight` (stlslicer.py lines 187-195).
The two inner conditions test the truthiness of the un-called method
attributes, so they can never take the `False` branch. -/
def repair_mesh_watertight (m : Mesh) : Bool :=
  if !m.is_watertight then
    if !bound_method_truthy then
      if !bound_method_truthy then
        false
      else
        true
    else
      true
  else
    true

/-- Embedding of the watertight flag recorded by `STLSlicer.load_mesh`
(stlslicer.py lines 48-50): `self.mesh_watertight` starts `False` and is
set to `True` exactly when `repair_mesh_watertight` returns truthy. -/
def load_mesh_watertight (m : Mesh) : Bool :=
  if repair_mesh_watertight m then true else false

/-- Reading `self.distance`: the attribute is only annotated, never
assigned, in `STLSlicer.__init__` (stlslicer.py line 19), so reading it
while unset raises `AttributeError`. `none` models the unset state. -/
def resolveSelf : Option ℚ → Except PyError ℚ
  | some sd => Except.ok sd
  | none => Except.error PyError.attributeError

/-- The expression `distance = distance or self.distance` (stlslicer.py
line 82): a `None` argument and the float `0.0` are both falsy, in which
case Python evaluates `self.distance`. -/
def resolve_distance (distArg selfDist : Option ℚ) : Except PyError ℚ :=
  match distArg with
  | some d => if d ≠ 0 then Except.ok d else resolveSelf selfDist
  | none => resolveSelf selfDist

/-- The layer dictionary built by the loop at stlslicer.py lines 102-104:
`for i in range(len(slices_2D)): layers[z_list[i]] = slices_2D[i]`. -/
def buildLayers (z_list : List ℚ) (slices_2D : List (Option CrossSection)) :
    List (ℚ × Option CrossSection) :=
  (List.range slices_2D.length).foldl
    (fun d i => pyDictInsert d (z_list.getD i 0) (slices_2D.getD i none)) []

/-- Embedding of `STLSlicer.slice_mesh` (stlslicer.py lines 52-108).
`distArg` is the `distance` parameter (default `None`), `selfDist` the
state of the `self.distance` attribute (`none` = never assigned).
The first `indexError` models the `z_list[0]` / `z_list[-1]` accesses in
the log call at line 92; the second models `z_list[i]` in the loop at
line 104 when the sectioner returns more entries than there are heights. -/
def slice_mesh (sec : Sectioner) (m : Mesh) (distArg selfDist : Option ℚ) :
    Except PyError SliceResult :=
  match resolve_distance distArg selfDist with
  | Except.error e => Except.error e
  | Except.ok d =>
    if d = 0 then Except.error PyError.zeroDivisionError
    else
      let z_min : ℚ := m.bounds_min.z
      let z_max : ℚ := m.bounds_max.z
      let origin : Vec3 := ⟨m.centroid.x, m.centroid.y, z_min⟩
      let no_of_planes : ℤ := pyInt ((z_max - z_min) / d)
      let z_list : List ℚ := (pyRange (no_of_planes + 1)).map (fun i : ℤ => (i : ℚ) * d)
      if z_list.isEmpty then Except.error PyError.indexError
      else
        let slices_2D := sec origin ⟨0, 0, 1⟩ z_list
        if z_list.length < slices_2D.length then Except.error PyError.indexError
        else Except.ok ⟨origin, z_list, buildLayers z_list slices_2D⟩

/-- The height schedule that `slice_mesh` computes for a mesh of Z-extent
`e` and a positive pitch `d` (derived closed form used in statements). -/
def zSchedule (e d : ℚ) : List ℚ :=
  (List.range ((⌊e / d⌋).toNat + 1)).map (fun i : ℕ => (i : ℚ) * d)

/-- The slicer session state read by `STLSlicer.export_layers`:
`self.full_filename`, `self.filename` (the stem, extension split off),
`self.mesh.units`, `self.mesh_watertight` and `self.layers`. -/
structure Session where
  full_filename : String
  filename : String
  units : String
  mesh_watertight : Bool
  layers : List (ℚ × Option CrossSection)

/-- The environment of an `export_layers` call: the behaviour of the
external vector writer `Path2D.export` (`writeOk c = false` models the
`AttributeError` it raises on a section with no drawable geometry), the
set of directories that already exist, the successive values returned by
`datetime.now().strftime(...)`, and fuel bounding the retry loop. -/
structure ExportEnv where
  writeOk : CrossSection → Bool
  existingDirs : List String
  timestamps : ℕ → String
  fuel : ℕ

/-- The observable effect of an `export_layers` call: the value returned,
the directories created, the files written (in creation order), the
`files` dictionary placed in the index JSON, the per-layer skip
diagnostics, and whether the supported-format list was logged. -/
structure ExportEffect where
  ret : Bool
  dirsCreated : List String
  filesWritten : List String
  indexFiles : List (ℚ × String)
  skipLogs : List String
  loggedSupported : Option (List String)
deriving DecidableEq

/-- The module constant `STR_DATETIME_FORMAT` (stlslicer.py line 13),
the strftime pattern producing a `YYYYMMDD-HHMMSS` timestamp. -/
def STR_DATETIME_FORMAT : String := "%Y%m%d-%H%M%S"

/-- The directory name `"_".join([self.filename, exp_type, date_time_str])`
(stlslicer.py line 146). -/
def dir_name_of (filename fmt ts : String) : String :=
  String.intercalate "_" [filename, fmt, ts]

/-- The `while True` directory-creation loop (stlslicer.py lines 144-152):
attempt `k` formats the `k`-th timestamp, and `os.makedirs(...,
exist_ok=False)` succeeds exactly when the name does not exist yet;
on `OSError` the loop retries with a fresh timestamp. `fuel` bounds the
number of modelled attempts (`none` = still colliding after `fuel`). -/
def makeDirsLoop (existing : List String) (filename fmt : String)
    (timestamps : ℕ → String) : ℕ → ℕ → Option String
  | _, 0 => none
  | k, fuel + 1 =>
    let name := dir_name_of filename fmt (timestamps k)
    if name ∈ existing then makeDirsLoop existing filename fmt timestamps (k + 1) fuel
    else some name

/-- Helper for `baseNameOf`: scans the characters, restarting the
accumulated component after each `/`. -/
def baseNameAux : List Char → List Char → List Char
  | [], acc => acc
  | c :: cs, acc => if c = '/' then baseNameAux cs [] else baseNameAux cs (acc ++ [c])

/-- The base name `os.path.split(self.filename)[1]` (stlslicer.py
line 154): the part of the stem after the last `/`. -/
def baseNameOf (p : String) : String := String.mk (baseNameAux p.data [])

/-- The per-layer file name `f"{dir_name}/{base_name}_{height}.{exp_type}"`
(stlslicer.py line 163). -/
def layer_filename (dir base : String) (h : ℚ) (fmt : String) : String :=
  dir ++ "/" ++ base ++ "_" ++ toString h ++ "." ++ fmt

/-- Whether the call `path2D.export(...)` (stlslicer.py line 165)
completes without `AttributeError`: a `None` layer has no `export`
attribute at all, and a real `Path2D` fails when the external writer
rejects it (no renderable geometry). -/
def exportAttempt (writeOk : CrossSection → Bool) : Option CrossSection → Bool
  | none => false
  | some c => writeOk c

/-- The per-layer export loop (stlslicer.py lines 162-170), threading the
accumulated state as (vector files written, `files` dictionary, skip
diagnostics). A successful layer is written and recorded in the `files`
dictionary; a failing layer only logs its diagnostic and is skipped. -/
def exportVectorLoop (writeOk : CrossSection → Bool) (dir base fmt : String) :
    List (ℚ × Option CrossSection) →
    List String × List (ℚ × String) × List String →
    List String × List (ℚ × String) × List String
  | [], acc => acc
  | hp :: rest, acc =>
    let fname := layer_filename dir base hp.1 fmt
    if exportAttempt writeOk hp.2 then
      exportVectorLoop writeOk dir base fmt rest
        (acc.1 ++ [fname], pyDictInsert acc.2.1 hp.1 fname, acc.2.2)
    else
      exportVectorLoop writeOk dir base fmt rest
        (acc.1, acc.2.1, acc.2.2 ++ [fname ++ " not created. No data to display."])

/-- The supported export formats listed by the unsupported-format log
message (stlslicer.py lines 179-182). -/
def supported_formats : List String := ["json", "dxf", "svg"]

/-- Embedding of `STLSlicer.export_layers` (stlslicer.py lines 110-184),
called with the `layers` argument left at its default so `self.layers`
is used. The `json` branch overwrites `<stem>.json`; the `dxf`/`svg`
branch creates a fresh timestamped directory, opens (creates) the index
file `<base>_info.json`, runs the per-layer loop, and returns `True`;
any other format logs the supported list and returns `False`.
`none` models the directory loop still colliding after `fuel` tries. -/
def export_layers (env : ExportEnv) (s : Session) (exp_type : String) :
    Option ExportEffect :=
  if exp_type = "json" then
    some ⟨true, [], [s.filename ++ "." ++ exp_type], [], [], none⟩
  else if exp_type = "dxf" ∨ exp_type = "svg" then
    match makeDirsLoop env.existingDirs s.filename exp_type env.timestamps 0 env.fuel with
    | none => none
    | some dir =>
      let base := baseNameOf s.filename
      let res := exportVectorLoop env.writeOk dir base exp_type s.layers ([], [], [])
      some ⟨true, [dir], (dir ++ "/" ++ base ++ "_info.json") :: res.1,
        res.2.1, res.2.2, none⟩
  else
    some ⟨false, [], [], [], [], some supported_formats⟩

/-- The values `NumpyArrayEncoder.default` (util.py lines 6-19) can
receive, by the `isinstance`/`is_instance_named` branch they hit. -/
inductive NpObj where
  | npInteger (n : ℤ)
  | npFloating (q : ℚ)
  | npNdarray (xs : List ℚ)
  | npBool (b : Bool)
  | path2D (c : CrossSection)
  | other
deriving DecidableEq

/-- The JSON value produced for one object by the encoder, or the
`TypeError` that `json.JSONEncoder.default` raises for anything else. -/
inductive PyJsonVal where
  | jint (n : ℤ)
  | jfloat (q : ℚ)
  | jlist (xs : List ℚ)
  | jbool (b : Bool)
  | jdict (c : CrossSection)
  | jtypeError
deriving DecidableEq

/-- Python `str` of a numpy bool: `str(np.True_) = "True"` and
`str(np.False_) = "False"`. -/
def npBoolStr (b : Bool) : String := if b then "True" else "False"

/-- Python `bool` applied to a string: `False` exactly for the empty
string. -/
def pyBoolOfStr (s : String) : Bool := !s.isEmpty

/-- Embedding of `NumpyArrayEncoder.default` (util.py lines 7-19).
The branches are tried in source order; they are disjoint here because
each constructor records which `isinstance` test the object satisfies.
The numpy-bool branch (util.py lines 14-15) returns `bool(str(obj))`. -/
def NumpyArrayEncoder_default : NpObj → PyJsonVal
  | NpObj.npInteger n => PyJsonVal.jint n
  | NpObj.npFloating q => PyJsonVal.jfloat q
  | NpObj.npNdarray xs => PyJsonVal.jlist xs
  | NpObj.npBool b => PyJsonVal.jbool (pyBoolOfStr (npBoolStr b))
  | NpObj.path2D c => PyJsonVal.jdict c
  | NpObj.other => PyJsonVal.jtypeError

/-- A concrete mesh for witnesses: a 10-unit cube resting at `z = 0`,
loaded without vertex merging and hence not watertight. -/
def mesh0 : Mesh := ⟨⟨0, 0, 0⟩, ⟨10, 10, 10⟩, ⟨5, 5, 5⟩, false⟩

/-- A concrete sectioner for witnesses: every plane misses the mesh. -/
def secNone : Sectioner := fun _ _ zs => zs.map (fun _ => none)

lemma pyDictInsert_notMem {α : Type} (d : List (ℚ × α)) (k : ℚ) (v : α)
    (hk : k ∉ d.map Prod.fst) : pyDictInsert d k v = d ++ [(k, v)] := by
  simp [pyDictInsert, hk]

lemma nodup_not_mem_take {l : List ℚ} (h : l.Nodup) {n : ℕ} (hn : n < l.length) :
    l[n] ∉ l.take n := by
  intro hmem
  obtain ⟨i, hi, hieq⟩ := List.getElem_of_mem hmem
  rw [List.getElem_take] at hieq
  have hlen : i < n := by
    have := hi
    simp only [List.length_take] at this
    omega
  have : i = n := (List.Nodup.getElem_inj_iff h).mp hieq
  omega

lemma buildLayers_eq_zip (zl : List ℚ) (ss : List (Option CrossSection))
    (hlen : ss.length ≤ zl.length) (hnd : zl.Nodup) :
    buildLayers zl ss = (zl.take ss.length).zip ss := by
  have key : ∀ n, n ≤ ss.length →
      (List.range n).foldl
          (fun d i => pyDictInsert d (zl.getD i 0) (ss.getD i none)) []
        = (zl.take n).zip (ss.take n) := by
    intro n
    induction n with
    | zero => intro _; simp
    | succ n ih =>
      intro hn
      have hn' : n ≤ ss.length := Nat.le_of_succ_le hn
      have hns : n < ss.length := hn
      have hnz : n < zl.length := lt_of_lt_of_le hns hlen
      rw [List.range_succ, List.foldl_append, ih hn']
      simp only [List.foldl_cons, List.foldl_nil]
      rw [List.getD_eq_getElem zl 0 hnz, List.getD_eq_getElem ss none hns]
      rw [pyDictInsert_notMem]
      · rw [List.take_succ, List.take_succ,
          List.getElem?_eq_getElem hnz, List.getElem?_eq_getElem hns]
        simp only [Option.toList_some]
        rw [List.zip_append (by simp [List.length_take]; omega)]
        simp
      · rw [List.map_fst_zip _ _ (by simp [List.length_take]; omega)]
        exact nodup_not_mem_take hnd hnz
  rw [buildLayers, key ss.length le_rfl, List.take_length]

lemma zSchedule_length (e d : ℚ) : (zSchedule e d).length = (⌊e / d⌋).toNat + 1 := by
  simp [zSchedule]

lemma zSchedule_nodup (e d : ℚ) (hd : d ≠ 0) : (zSchedule e d).Nodup := by
  rw [zSchedule]
  refine List.Nodup.map ?_ (List.nodup_range _)
  intro a b hab
  have h1 : (a : ℚ) = (b : ℚ) := mul_right_cancel₀ hd hab
  exact_mod_cast h1

lemma zSchedule_ne_nil (e d : ℚ) : zSchedule e d ≠ [] := by
  intro h
  have := zSchedule_length e d
  rw [h] at this
  simp at this

lemma zSchedule_head (e d : ℚ) : (zSchedule e d).head? = some 0 := by
  rw [zSchedule, List.range_succ_eq_map]
  simp

lemma zSchedule_le (e d : ℚ) (hd : 0 < d) (he : 0 ≤ e) :
    ∀ h ∈ zSchedule e d, h ≤ e := by
  intro h hm
  rw [zSchedule, List.mem_map] at hm
  obtain ⟨i, hir, rfl⟩ := hm
  rw [List.mem_range] at hir
  have hi : i ≤ (⌊e / d⌋).toNat := Nat.lt_succ_iff.mp hir
  have hfl : (0 : ℤ) ≤ ⌊e / d⌋ := Int.floor_nonneg.mpr (div_nonneg he hd.le)
  calc (i : ℚ) * d ≤ (((⌊e / d⌋).toNat : ℕ) : ℚ) * d := by
        exact mul_le_mul_of_nonneg_right (Nat.cast_le.mpr hi) hd.le
    _ = ((⌊e / d⌋ : ℤ) : ℚ) * d := by
        congr 1
        exact_mod_cast congrArg (fun z : ℤ => (z : ℚ)) (Int.toNat_of_nonneg hfl)
    _ ≤ (e / d) * d := mul_le_mul_of_nonneg_right (Int.floor_le _) hd.le
    _ = e := div_mul_cancel₀ e hd.ne'

lemma pyRange_map_mul (n : ℤ) (hn0 : 0 ≤ n) (d : ℚ) :
    (pyRange (n + 1)).map (fun i : ℤ => (i : ℚ) * d)
      = (List.range (n.toNat + 1)).map (fun i : ℕ => (i : ℚ) * d) := by
  have ht : (n + 1).toNat = n.toNat + 1 := by omega
  rw [pyRange, ht, List.map_map]
  refine List.map_congr_left ?_
  intro i _
  simp

/-- Evaluation of `slice_mesh` on the good path: a positive explicit
pitch, ordered Z bounds, and a sectioner honouring the trimesh contract
of one entry per requested height. -/
lemma slice_mesh_pos (sec : Sectioner) (m : Mesh) (d : ℚ) (hd : 0 < d)
    (hz : m.bounds_min.z ≤ m.bounds_max.z)
    (hsec : ∀ o nrm zs, (sec o nrm zs).length = zs.length) :
    slice_mesh sec m (some d) none =
      Except.ok ⟨⟨m.centroid.x, m.centroid.y, m.bounds_min.z⟩,
        zSchedule (m.bounds_max.z - m.bounds_min.z) d,
        (zSchedule (m.bounds_max.z - m.bounds_min.z) d).zip
          (sec ⟨m.centroid.x, m.centroid.y, m.bounds_min.z⟩ ⟨0, 0, 1⟩
            (zSchedule (m.bounds_max.z - m.bounds_min.z) d))⟩ := by
  have hres : resolve_distance (some d) none = Except.ok d := by
    simp [resolve_distance, hd.ne']
  have hq : (0 : ℚ) ≤ (m.bounds_max.z - m.bounds_min.z) / d :=
    div_nonneg (sub_nonneg.mpr hz) hd.le
  have hfl : (0 : ℤ) ≤ ⌊(m.bounds_max.z - m.bounds_min.z) / d⌋ :=
    Int.floor_nonneg.mpr hq
  have hpy : pyInt ((m.bounds_max.z - m.bounds_min.z) / d)
      = ⌊(m.bounds_max.z - m.bounds_min.z) / d⌋ := by
    simp [pyInt, hq]
  have hzl : (pyRange (pyInt ((m.bounds_max.z - m.bounds_min.z) / d) + 1)).map
      (fun i : ℤ => (i : ℚ) * d) = zSchedule (m.bounds_max.z - m.bounds_min.z) d := by
    rw [hpy, pyRange_map_mul _ hfl, zSchedule]
  have hemp : (zSchedule (m.bounds_max.z - m.bounds_min.z) d).isEmpty = false := by
    rw [List.isEmpty_eq_false_iff_exists_mem]
    rcases List.exists_mem_of_ne_nil _ (zSchedule_ne_nil (m.bounds_max.z - m.bounds_min.z) d)
      with ⟨x, hx⟩
    exact ⟨x, hx⟩
  rw [slice_mesh, hres]
  simp only [if_neg hd.ne', hzl, hemp, Bool.false_eq_true, if_false,
    hsec, lt_irrefl, buildLayers_eq_zip _ _ (le_of_eq (hsec _ _ _))
      (zSchedule_nodup _ _ hd.ne'), hsec, List.take_length]

lemma resolve_distance_error (a s : Option ℚ) (e : PyError)
    (h : resolve_distance a s = Except.error e) : e = PyError.attributeError := by
  rcases a with _ | d
  · rcases s with _ | sd
    · simp only [resolve_distance, resolveSelf, Except.error.injEq] at h
      exact h.symm
    · simp [resolve_distance, resolveSelf] at h
  · simp only [resolve_distance] at h
    split at h
    · simp at h
    · rcases s with _ | sd
      · simp only [resolveSelf, Except.error.injEq] at h
        exact h.symm
      · simp [resolveSelf] at h

lemma slice_mesh_outcomes (sec : Sectioner) (m : Mesh) (a s : Option ℚ) :
    (∃ r, slice_mesh sec m a s = Except.ok r) ∨
    slice_mesh sec m a s = Except.error PyError.attributeError ∨
    slice_mesh sec m a s = Except.error PyError.zeroDivisionError ∨
    slice_mesh sec m a s = Except.error PyError.indexError := by
  rw [slice_mesh]
  cases hres : resolve_distance a s with
  | error e =>
    have he := resolve_distance_error a s e hres
    subst he
    right; left; rfl
  | ok d =>
    by_cases h0 : d = 0
    · right; right; left; simp [h0]
    · simp only [if_neg h0]
      split
      · right; right; right; rfl
      · split
        · right; right; right; rfl
        · left; exact ⟨_, rfl⟩

lemma slice_mesh_ne_invalid (sec : Sectioner) (m : Mesh) (a s : Option ℚ) :
    slice_mesh sec m a s ≠ Except.error PyError.invalidParameter := by
  intro hbad
  rcases slice_mesh_outcomes sec m a s with ⟨r, hr⟩ | h | h | h
  · have := hr.symm.trans hbad
    simp at this
  all_goals
    have := h.symm.trans hbad
    simp at this

lemma slice_mesh_falsy_distance (sec : Sectioner) (m : Mesh) (a : Option ℚ)
    (ha : a = none ∨ a = some 0) :
    slice_mesh sec m a none = Except.error PyError.attributeError := by
  rcases ha with rfl | rfl <;> simp [slice_mesh, resolve_distance, resolveSelf]

lemma slice_mesh_nonzero_cases (sec : Sectioner) (m : Mesh) (d : ℚ) (hd : d ≠ 0) :
    (∃ r, slice_mesh sec m (some d) none = Except.ok r) ∨
    slice_mesh sec m (some d) none = Except.error PyError.indexError := by
  have hres : resolve_distance (some d) none = Except.ok d := by
    simp [resolve_distance, hd]
  rw [slice_mesh, hres]
  simp only [if_neg hd]
  split
  · right; rfl
  · split
    · right; rfl
    · left; exact ⟨_, rfl⟩

/-- C1: for a loaded mesh with Z bounds `[z_min, z_max]` and a pitch
`d > 0`, `slice_mesh` builds a schedule of exactly
`floor((z_max - z_min) / d) + 1` heights, namely `i * d` for `i` from `0`
to `floor((z_max - z_min) / d)`; the first height offset is `0` and every
height offset (in particular the last) is at most `z_max - z_min`. -/
theorem slice_mesh_schedule (sec : Sectioner) (m : Mesh) (d : ℚ) (hd : 0 < d)
    (hz : m.bounds_min.z ≤ m.bounds_max.z)
    (hsec : ∀ o nrm zs, (sec o nrm zs).length = zs.length) :
    ∃ r : SliceResult, slice_mesh sec m (some d) none = Except.ok r ∧
      r.z_list.length = (⌊(m.bounds_max.z - m.bounds_min.z) / d⌋).toNat + 1 ∧
      r.z_list = (List.range ((⌊(m.bounds_max.z - m.bounds_min.z) / d⌋).toNat + 1)).map
        (fun i : ℕ => (i : ℚ) * d) ∧
      r.z_list.head? = some 0 ∧
      ∀ h ∈ r.z_list, h ≤ m.bounds_max.z - m.bounds_min.z := by
  refine ⟨_, slice_mesh_pos sec m d hd hz hsec, ?_, rfl, ?_, ?_⟩
  · exact zSchedule_length _ _
  · exact zSchedule_head _ _
  · exact zSchedule_le _ _ hd (sub_nonneg.mpr hz)

/-- Witness for C1: the 10-unit cube sliced at pitch 3 gives the four
heights 0, 3, 6, 9. -/
theorem slice_mesh_schedule_witness :
    ∃ r : SliceResult, slice_mesh secNone mesh0 (some 3) none = Except.ok r ∧
      r.z_list.length = (⌊(mesh0.bounds_max.z - mesh0.bounds_min.z) / 3⌋).toNat + 1 ∧
      r.z_list = (List.range ((⌊(mesh0.bounds_max.z - mesh0.bounds_min.z) / 3⌋).toNat + 1)).map
        (fun i : ℕ => (i : ℚ) * 3) ∧
      r.z_list.head? = some 0 ∧
      ∀ h ∈ r.z_list, h ≤ mesh0.bounds_max.z - mesh0.bounds_min.z :=
  slice_mesh_schedule secNone mesh0 3 (by norm_num) (by norm_num [mesh0])
    (fun o nrm zs => by simp [secNone])

/-- C4: for every mesh and valid pitch the layer store has exactly one
entry per scheduled height, in schedule order; a height whose plane
misses the mesh keeps its slot (its entry pairs the height with `none`)
instead of being omitted. -/
theorem slice_mesh_layerstore (sec : Sectioner) (m : Mesh) (d : ℚ) (hd : 0 < d)
    (hz : m.bounds_min.z ≤ m.bounds_max.z)
    (hsec : ∀ o nrm zs, (sec o nrm zs).length = zs.length) :
    ∃ r : SliceResult, slice_mesh sec m (some d) none = Except.ok r ∧
      r.layers = r.z_list.zip (sec r.origin ⟨0, 0, 1⟩ r.z_list) ∧
      r.layers.map Prod.fst = r.z_list ∧
      r.layers.length = r.z_list.length := by
  refine ⟨_, slice_mesh_pos sec m d hd hz hsec, rfl, ?_, ?_⟩
  · exact List.map_fst_zip _ _ (le_of_eq (hsec _ _ _).symm)
  · simp [List.length_zip, hsec]

/-- Witness for C4: the cube sliced at pitch 2 with a sectioner that
misses everywhere still stores one (empty) entry per height. -/
theorem slice_mesh_layerstore_witness :
    ∃ r : SliceResult, slice_mesh secNone mesh0 (some 2) none = Except.ok r ∧
      r.layers = r.z_list.zip (secNone r.origin ⟨0, 0, 1⟩ r.z_list) ∧
      r.layers.map Prod.fst = r.z_list ∧
      r.layers.length = r.z_list.length :=
  slice_mesh_layerstore secNone mesh0 2 (by norm_num) (by norm_num [mesh0])
    (fun o nrm zs => by simp [secNone])

/-- C5: the slicing plane origin has X and Y equal to the mesh centroid's
X and Y and Z equal to the mesh's minimum Z bound, so the first slice
(offset 0) sits at the bottom of the model. -/
theorem slice_mesh_origin_bottom (sec : Sectioner) (m : Mesh) (d : ℚ) (hd : 0 < d)
    (hz : m.bounds_min.z ≤ m.bounds_max.z)
    (hsec : ∀ o nrm zs, (sec o nrm zs).length = zs.length) :
    ∃ r : SliceResult, slice_mesh sec m (some d) none = Except.ok r ∧
      r.origin.x = m.centroid.x ∧ r.origin.y = m.centroid.y ∧
      r.origin.z = m.bounds_min.z ∧ r.z_list.head? = some 0 :=
  ⟨_, slice_mesh_pos sec m d hd hz hsec, rfl, rfl, rfl, zSchedule_head _ _⟩

/-- Witness for C5: on the cube, the origin is the centroid's X,Y over
the bottom plane `z = 0`. -/
theorem slice_mesh_origin_bottom_witness :
    ∃ r : SliceResult, slice_mesh secNone mesh0 (some 5) none = Except.ok r ∧
      r.origin.x = mesh0.centroid.x ∧ r.origin.y = mesh0.centroid.y ∧
      r.origin.z = mesh0.bounds_min.z ∧ r.z_list.head? = some 0 :=
  slice_mesh_origin_bottom secNone mesh0 5 (by norm_num) (by norm_num [mesh0])
    (fun o nrm zs => by simp [secNone])

/-- C10: on a slicer whose `distance` attribute was never assigned (as
`STLSlicer.__init__` in stlslicer.py leaves it), calling `slice_mesh`
with the pitch omitted/`None` or `0` raises `AttributeError` — the
expression `distance or self.distance` treats `0` as absent and reads the
unset attribute — and it does not report `InvalidParameter`. -/
theorem slice_mesh_unset_distance (sec : Sectioner) (m : Mesh) :
    slice_mesh sec m none none = Except.error PyError.attributeError ∧
    slice_mesh sec m (some 0) none = Except.error PyError.attributeError ∧
    slice_mesh sec m none none ≠ Except.error PyError.invalidParameter ∧
    slice_mesh sec m (some 0) none ≠ Except.error PyError.invalidParameter :=
  ⟨slice_mesh_falsy_distance sec m none (Or.inl rfl),
   slice_mesh_falsy_distance sec m (some 0) (Or.inr rfl),
   slice_mesh_ne_invalid sec m none none,
   slice_mesh_ne_invalid sec m (some 0) none⟩

lemma slice_mesh_single (sec : Sectioner) (m : Mesh) (d : ℚ) (hd : d ≠ 0)
    (hpy : pyInt ((m.bounds_max.z - m.bounds_min.z) / d) = 0)
    (hsec1 : sec ⟨m.centroid.x, m.centroid.y, m.bounds_min.z⟩ ⟨0, 0, 1⟩ [0] = [none]) :
    slice_mesh sec m (some d) none =
      Except.ok ⟨⟨m.centroid.x, m.centroid.y, m.bounds_min.z⟩, [0], [(0, none)]⟩ := by
  have hres : resolve_distance (some d) none = Except.ok d := by
    simp [resolve_distance, hd]
  have hrange : pyRange (0 + 1) = [(0 : ℤ)] := by
    norm_num [pyRange, List.range_succ]
  have hmap : ([(0 : ℤ)]).map (fun i : ℤ => (i : ℚ) * d) = [0] := by
    norm_num
  rw [slice_mesh, hres]
  simp only [if_neg hd, hpy, hrange, hmap, hsec1]
  norm_num [buildLayers, pyDictInsert, List.range_succ]

/-- Counterexample to C3 as stated: at the negative pitch `-20` on the
10-unit cube, `slice_mesh` does not fail at all — it computes the
one-height schedule `[0]` and returns a layer store — so no
`InvalidParameter` failure occurs for this non-positive pitch. -/
theorem slice_mesh_negative_pitch_counterexample :
    slice_mesh secNone mesh0 (some (-20)) none =
      Except.ok ⟨⟨5, 5, 0⟩, [0], [(0, none)]⟩ ∧
    slice_mesh secNone mesh0 (some (-20)) none ≠
      Except.error PyError.invalidParameter := by
  have hpy : pyInt ((mesh0.bounds_max.z - mesh0.bounds_min.z) / (-20)) = 0 := by
    have hq : ((mesh0.bounds_max.z - mesh0.bounds_min.z) / (-20) : ℚ) = -(1 / 2) := by
      norm_num [mesh0]
    rw [hq, pyInt]
    norm_num
  have heval := slice_mesh_single secNone mesh0 (-20) (by norm_num) hpy rfl
  refine ⟨heval, ?_⟩
  rw [heval]
  simp

/-- C3 amended: `slice_mesh` never reports `InvalidParameter` for a
non-positive pitch. A pitch of `0` falls back to the unset
`self.distance` attribute and raises `AttributeError`; a negative pitch
is used unvalidated and either yields a (degenerate) schedule or raises
`IndexError` on the empty height list. -/
theorem slice_mesh_nonpositive_pitch (sec : Sectioner) (m : Mesh) (d : ℚ)
    (hd : d ≤ 0) :
    slice_mesh sec m (some d) none ≠ Except.error PyError.invalidParameter ∧
    (d = 0 → slice_mesh sec m (some d) none = Except.error PyError.attributeError) ∧
    (d < 0 → (∃ r, slice_mesh sec m (some d) none = Except.ok r) ∨
      slice_mesh sec m (some d) none = Except.error PyError.indexError) := by
  refine ⟨slice_mesh_ne_invalid sec m (some d) none, ?_, ?_⟩
  · intro h0
    exact slice_mesh_falsy_distance sec m (some d) (Or.inr (by rw [h0]))
  · intro hlt
    exact slice_mesh_nonzero_cases sec m d hlt.ne

/-- Witness for the amended C3 at pitch `-20`. -/
theorem slice_mesh_nonpositive_pitch_witness :
    slice_mesh secNone mesh0 (some (-20)) none ≠ Except.error PyError.invalidParameter ∧
    ((-20 : ℚ) = 0 → slice_mesh secNone mesh0 (some (-20)) none =
      Except.error PyError.attributeError) ∧
    ((-20 : ℚ) < 0 → (∃ r, slice_mesh secNone mesh0 (some (-20)) none = Except.ok r) ∨
      slice_mesh secNone mesh0 (some (-20)) none = Except.error PyError.indexError) :=
  slice_mesh_nonpositive_pitch secNone mesh0 (-20) (by norm_num)

/-- C2 is violated by the code: the conditions at stlslicer.py lines 190
and 192 test the truthiness of the un-called bound methods
`mesh.fix_normals` and `mesh.fill_holes`, which are always truthy, so
`repair_mesh_watertight` returns `True` for every mesh — including a
mesh that is not watertight, for which `load_mesh` then records
`mesh_watertight = True` — and can never return `False`. -/
theorem repair_mesh_watertight_always_true :
    repair_mesh_watertight ⟨⟨0, 0, 0⟩, ⟨10, 10, 10⟩, ⟨5, 5, 5⟩, false⟩ = true ∧
    load_mesh_watertight ⟨⟨0, 0, 0⟩, ⟨10, 10, 10⟩, ⟨5, 5, 5⟩, false⟩ = true ∧
    ∀ m : Mesh, repair_mesh_watertight m = true := by
  refine ⟨rfl, rfl, ?_⟩
  intro m
  cases h : m.is_watertight <;>
    simp [repair_mesh_watertight, bound_method_truthy, h]

lemma makeDirsLoop_spec (existing : List String) (filename fmt : String)
    (ts : ℕ → String) :
    ∀ (fuel k : ℕ) (name : String),
      makeDirsLoop existing filename fmt ts k fuel = some name →
      name ∉ existing ∧
      ∃ i, k ≤ i ∧ name = dir_name_of filename fmt (ts i) ∧
        ∀ j, k ≤ j → j < i → dir_name_of filename fmt (ts j) ∈ existing := by
  intro fuel
  induction fuel with
  | zero =>
    intro k name h
    simp [makeDirsLoop] at h
  | succ fuel ih =>
    intro k name h
    simp only [makeDirsLoop] at h
    by_cases hmem : dir_name_of filename fmt (ts k) ∈ existing
    · rw [if_pos hmem] at h
      obtain ⟨hnot, i, hki, hname, hall⟩ := ih (k + 1) name h
      refine ⟨hnot, i, by omega, hname, ?_⟩
      intro j hkj hji
      rcases Nat.eq_or_lt_of_le hkj with rfl | hlt
      · exact hmem
      · exact hall j hlt hji
    · rw [if_neg hmem] at h
      injection h with h'
      subst h'
      exact ⟨hmem, k, le_rfl, rfl,
        fun j hkj hji => absurd (lt_of_le_of_lt hkj hji) (lt_irrefl k)⟩

lemma exportVectorLoop_spec (writeOk : CrossSection → Bool) (dir base fmt : String) :
    ∀ (ls : List (ℚ × Option CrossSection))
      (acc : List String × List (ℚ × String) × List String),
      (∀ k ∈ ls.map Prod.fst, k ∉ acc.2.1.map Prod.fst) →
      (ls.map Prod.fst).Nodup →
      exportVectorLoop writeOk dir base fmt ls acc =
        (acc.1 ++ (ls.filter (fun hp => exportAttempt writeOk hp.2)).map
            (fun hp => layer_filename dir base hp.1 fmt),
         acc.2.1 ++ (ls.filter (fun hp => exportAttempt writeOk hp.2)).map
            (fun hp => (hp.1, layer_filename dir base hp.1 fmt)),
         acc.2.2 ++ (ls.filter (fun hp => !exportAttempt writeOk hp.2)).map
            (fun hp => layer_filename dir base hp.1 fmt ++
              " not created. No data to display.")) := by
  intro ls
  induction ls with
  | nil =>
    intro acc _ _
    simp [exportVectorLoop]
  | cons hp rest ih =>
    intro acc hdisj hnd
    have hndrest : (rest.map Prod.fst).Nodup := (List.nodup_cons.mp (by simpa using hnd)).2
    have hheadnot : hp.1 ∉ rest.map Prod.fst := (List.nodup_cons.mp (by simpa using hnd)).1
    simp only [exportVectorLoop]
    by_cases hatt : exportAttempt writeOk hp.2 = true
    · rw [if_pos hatt]
      rw [pyDictInsert_notMem _ _ _ (hdisj hp.1 (by simp))]
      rw [ih (acc.1 ++ [layer_filename dir base hp.1 fmt],
            acc.2.1 ++ [(hp.1, layer_filename dir base hp.1 fmt)], acc.2.2) ?_ hndrest]
      · simp [List.filter_cons, hatt]
      · intro k hk
        simp only [List.map_append, List.mem_append]
        push_neg
        refine ⟨hdisj k (by simp [hk]), ?_⟩
        simp only [List.map_cons, List.map_nil, List.mem_singleton]
        intro hkk
        rw [hkk] at hk
        exact hheadnot hk
    · rw [if_neg hatt]
      rw [ih (acc.1, acc.2.1,
            acc.2.2 ++ [layer_filename dir base hp.1 fmt ++
              " not created. No data to display."]) ?_ hndrest]
      · simp [List.filter_cons, hatt]
      · intro k hk
        exact hdisj k (by simp [hk])

/-- C6: for every format other than `json`, `dxf` and `svg`,
`export_layers` creates no directory, writes no file, raises no
exception, logs the list of supported formats, and returns `False`. -/
theorem export_layers_unsupported (env : ExportEnv) (s : Session) (fmt : String)
    (h1 : fmt ≠ "json") (h2 : fmt ≠ "dxf") (h3 : fmt ≠ "svg") :
    export_layers env s fmt =
      some ⟨false, [], [], [], [], some supported_formats⟩ := by
  rw [export_layers, if_neg h1, if_neg (not_or.mpr ⟨h2, h3⟩)]

/-- Witness for C6: exporting to the unsupported format `obj` returns
failure, writes nothing, and logs the supported formats. -/
theorem export_layers_unsupported_witness :
    export_layers ⟨fun _ => true, [], fun _ => "20240101-120000", 1⟩
      ⟨"cube.stl", "cube", "mm", false, []⟩ "obj" =
      some ⟨false, [], [], [], [], some supported_formats⟩ :=
  export_layers_unsupported _ _ "obj" (by decide) (by decide) (by decide)

/-- C7: directory export (`dxf`/`svg`) creates exactly one directory,
named from the source stem, the format and a timestamp drawn from the
`YYYYMMDD-HHMMSS` strftime pattern; the created name did not previously
exist, and every earlier attempt `j` collided with an existing name,
which is what forced the timestamp to be regenerated. -/
theorem export_layers_fresh_dir (env : ExportEnv) (s : Session) (fmt : String)
    (eff : ExportEffect) (hfmt : fmt = "dxf" ∨ fmt = "svg")
    (hok : export_layers env s fmt = some eff) :
    STR_DATETIME_FORMAT = "%Y%m%d-%H%M%S" ∧
    ∃ dir i, eff.dirsCreated = [dir] ∧
      dir = dir_name_of s.filename fmt (env.timestamps i) ∧
      dir ∉ env.existingDirs ∧
      ∀ j < i, dir_name_of s.filename fmt (env.timestamps j) ∈ env.existingDirs := by
  refine ⟨rfl, ?_⟩
  have hjson : fmt ≠ "json" := by rcases hfmt with rfl | rfl <;> decide
  rw [export_layers, if_neg hjson, if_pos hfmt] at hok
  cases hdir : makeDirsLoop env.existingDirs s.filename fmt env.timestamps 0 env.fuel with
  | none =>
    rw [hdir] at hok
    simp at hok
  | some dir =>
    rw [hdir] at hok
    obtain ⟨hnot, i, _, hname, hall⟩ :=
      makeDirsLoop_spec env.existingDirs s.filename fmt env.timestamps env.fuel 0 dir hdir
    rw [Option.some_inj] at hok
    subst hok
    exact ⟨dir, i, rfl, hname, hnot, fun j hj => hall j (Nat.zero_le j) hj⟩

/-- Witness for C7: with an existing directory `cube_dxf_A` and a clock
returning `A` then `B`, the export retries and creates `cube_dxf_B`. -/
theorem export_layers_fresh_dir_witness :
    STR_DATETIME_FORMAT = "%Y%m%d-%H%M%S" ∧
    ∃ dir i, (⟨true, ["cube_dxf_B"], ["cube_dxf_B/cube_info.json"], [], [],
        none⟩ : ExportEffect).dirsCreated = [dir] ∧
      dir = dir_name_of (⟨"cube.stl", "cube", "mm", false, []⟩ : Session).filename "dxf"
        ((⟨fun _ => true, ["cube_dxf_A"], fun n => if n = 0 then "A" else "B", 2⟩ :
          ExportEnv).timestamps i) ∧
      dir ∉ (⟨fun _ => true, ["cube_dxf_A"], fun n => if n = 0 then "A" else "B", 2⟩ :
          ExportEnv).existingDirs ∧
      ∀ j < i, dir_name_of (⟨"cube.stl", "cube", "mm", false, []⟩ : Session).filename "dxf"
        ((⟨fun _ => true, ["cube_dxf_A"], fun n => if n = 0 then "A" else "B", 2⟩ :
          ExportEnv).timestamps j) ∈
        (⟨fun _ => true, ["cube_dxf_A"], fun n => if n = 0 then "A" else "B", 2⟩ :
          ExportEnv).existingDirs :=
  export_layers_fresh_dir _ _ "dxf" _ (Or.inl rfl) (by decide)

/-- C8: during directory export every layer is processed: each layer
whose `Path2D.export` call succeeds yields a vector file named
`<base>_<height>.<format>` and an entry in the `files` index of the
single `<base>_info.json`; a layer whose export raises is logged and
omitted from the index, without aborting the remaining layers or the
`True` result. -/
theorem export_layers_vector_files (env : ExportEnv) (s : Session) (fmt : String)
    (eff : ExportEffect) (hfmt : fmt = "dxf" ∨ fmt = "svg")
    (hnd : (s.layers.map Prod.fst).Nodup)
    (hok : export_layers env s fmt = some eff) :
    eff.ret = true ∧
    ∃ dir, eff.dirsCreated = [dir] ∧
      eff.filesWritten = (dir ++ "/" ++ baseNameOf s.filename ++ "_info.json") ::
        (s.layers.filter (fun hp => exportAttempt env.writeOk hp.2)).map
          (fun hp => layer_filename dir (baseNameOf s.filename) hp.1 fmt) ∧
      eff.indexFiles = (s.layers.filter (fun hp => exportAttempt env.writeOk hp.2)).map
          (fun hp => (hp.1, layer_filename dir (baseNameOf s.filename) hp.1 fmt)) ∧
      eff.skipLogs = (s.layers.filter (fun hp => !exportAttempt env.writeOk hp.2)).map
          (fun hp => layer_filename dir (baseNameOf s.filename) hp.1 fmt ++
            " not created. No data to display.") := by
  have hjson : fmt ≠ "json" := by rcases hfmt with rfl | rfl <;> decide
  rw [export_layers, if_neg hjson, if_pos hfmt] at hok
  cases hdir : makeDirsLoop env.existingDirs s.filename fmt env.timestamps 0 env.fuel with
  | none =>
    rw [hdir] at hok
    simp at hok
  | some dir =>
    rw [hdir] at hok
    rw [Option.some_inj] at hok
    subst hok
    have hloop := exportVectorLoop_spec env.writeOk dir (baseNameOf s.filename) fmt
      s.layers ([], [], []) (by intro k _; simp) hnd
    refine ⟨rfl, dir, rfl, ?_, ?_, ?_⟩
    · show (dir ++ "/" ++ baseNameOf s.filename ++ "_info.json") ::
        (exportVectorLoop env.writeOk dir (baseNameOf s.filename) fmt
          s.layers ([], [], [])).1 = _
      rw [hloop]
      simp
    · show (exportVectorLoop env.writeOk dir (baseNameOf s.filename) fmt
          s.layers ([], [], [])).2.1 = _
      rw [hloop]
      simp
    · show (exportVectorLoop env.writeOk dir (baseNameOf s.filename) fmt
          s.layers ([], [], [])).2.2 = _
      rw [hloop]
      simp

/-- Witness for C8: two layers, one exportable and one empty; the empty
layer is logged and skipped, the other is written and indexed. -/
theorem export_layers_vector_files_witness :
    (⟨true, ["cube_dxf_T"], ["cube_dxf_T/cube_info.json", "cube_dxf_T/cube_0.dxf"],
        [(0, "cube_dxf_T/cube_0.dxf")],
        ["cube_dxf_T/cube_3.dxf not created. No data to display."], none⟩ :
        ExportEffect).ret = true ∧
    ∃ dir, (⟨true, ["cube_dxf_T"],
        ["cube_dxf_T/cube_info.json", "cube_dxf_T/cube_0.dxf"],
        [(0, "cube_dxf_T/cube_0.dxf")],
        ["cube_dxf_T/cube_3.dxf not created. No data to display."], none⟩ :
        ExportEffect).dirsCreated = [dir] ∧
      (⟨true, ["cube_dxf_T"], ["cube_dxf_T/cube_info.json", "cube_dxf_T/cube_0.dxf"],
        [(0, "cube_dxf_T/cube_0.dxf")],
        ["cube_dxf_T/cube_3.dxf not created. No data to display."], none⟩ :
        ExportEffect).filesWritten =
        (dir ++ "/" ++ baseNameOf (⟨"cube.stl", "cube", "mm", true,
          [(0, some [[(1, 2)]]), (3, none)]⟩ : Session).filename ++ "_info.json") ::
        ((⟨"cube.stl", "cube", "mm", true,
          [(0, some [[(1, 2)]]), (3, none)]⟩ : Session).layers.filter
            (fun hp => exportAttempt (fun c => !c.isEmpty) hp.2)).map
          (fun hp => layer_filename dir (baseNameOf (⟨"cube.stl", "cube", "mm", true,
            [(0, some [[(1, 2)]]), (3, none)]⟩ : Session).filename) hp.1 "dxf") ∧
      (⟨true, ["cube_dxf_T"], ["cube_dxf_T/cube_info.json", "cube_dxf_T/cube_0.dxf"],
        [(0, "cube_dxf_T/cube_0.dxf")],
        ["cube_dxf_T/cube_3.dxf not created. No data to display."], none⟩ :
        ExportEffect).indexFiles =
        ((⟨"cube.stl", "cube", "mm", true,
          [(0, some [[(1, 2)]]), (3, none)]⟩ : Session).layers.filter
            (fun hp => exportAttempt (fun c => !c.isEmpty) hp.2)).map
          (fun hp => (hp.1, layer_filename dir (baseNameOf (⟨"cube.stl", "cube", "mm", true,
            [(0, some [[(1, 2)]]), (3, none)]⟩ : Session).filename) hp.1 "dxf")) ∧
      (⟨true, ["cube_dxf_T"], ["cube_dxf_T/cube_info.json", "cube_dxf_T/cube_0.dxf"],
        [(0, "cube_dxf_T/cube_0.dxf")],
        ["cube_dxf_T/cube_3.dxf not created. No data to display."], none⟩ :
        ExportEffect).skipLogs =
        ((⟨"cube.stl", "cube", "mm", true,
          [(0, some [[(1, 2)]]), (3, none)]⟩ : Session).layers.filter
            (fun hp => !exportAttempt (fun c => !c.isEmpty) hp.2)).map
          (fun hp => layer_filename dir (baseNameOf (⟨"cube.stl", "cube", "mm", true,
            [(0, some [[(1, 2)]]), (3, none)]⟩ : Session).filename) hp.1 "dxf" ++
            " not created. No data to display.") :=
  export_layers_vector_files
    ⟨fun c => !c.isEmpty, [], fun _ => "T", 1⟩
    ⟨"cube.stl", "cube", "mm", true, [(0, some [[(1, 2)]]), (3, none)]⟩
    "dxf" _ (Or.inl rfl) (by decide) (by decide)

/-- C9: for every numpy `bool_` value, `NumpyArrayEncoder.default`
returns Python `True`, because it computes `bool(str(b))` and both
`"True"` and `"False"` are non-empty strings; in particular a
numpy-boolean `False` is serialized as JSON `true`. -/
theorem numpy_bool_encoded_true :
    (∀ b : Bool, NumpyArrayEncoder_default (NpObj.npBool b) = PyJsonVal.jbool true) ∧
    NumpyArrayEncoder_default (NpObj.npBool false) = PyJsonVal.jbool true := by
  refine ⟨?_, rfl⟩
  intro b
  cases b <;> rfl
